import Mathlib

/-!
Shallow embedding of `src/final/src/api/utils.js` (API helper utilities of a
web client) and verification of its specification.

JavaScript runtime values are modelled by the inductive type `JVal`
(numbers as `Int`: every number the utilities manipulate is integral).
Property access on `null`/`undefined` throws a `TypeError` in JavaScript, so
plain access `v.k` is modelled by `JVal.getE` returning `Except JVal JVal`
(the `.error` case is the thrown exception value), while the optional-chained
access `v?.k` is the total `JVal.getOpt`.  Functions that can throw return
`Except JVal α`; `async` functions are modelled as functions of the outcome
(`Except JVal JVal`) of the awaited operation.  Console logging is the only
side effect elided.
-/

/-- Model of a JavaScript runtime value: `null`, `undefined`, booleans,
(integral) numbers, strings, and objects as insertion-ordered field lists. -/
inductive JVal where
  | jnull
  | jundefined
  | jbool (b : Bool)
  | jnum (n : Int)
  | jstr (s : String)
  | jobj (fields : List (String × JVal))

/-- Truthiness of a JavaScript value: `null`, `undefined`, `false`, `0` and
`""` are falsy, everything else (in this model) is truthy. -/
def truthy : JVal → Bool
  | .jnull => false
  | .jundefined => false
  | .jbool b => b
  | .jnum n => n != 0
  | .jstr s => s != ""
  | .jobj _ => true

/-- Whether a value is neither `null` nor `undefined` (property access on it
cannot throw). -/
def JVal.notNullish : JVal → Bool
  | .jnull => false
  | .jundefined => false
  | _ => true

/-- The `TypeError` thrown by JavaScript when reading property `k` of a
nullish value (message text abbreviated; no claim depends on its wording). -/
def typeError (k : String) : JVal :=
  .jobj [("name", .jstr "TypeError"),
         ("message", .jstr ("Cannot read properties of null or undefined, reading " ++ k))]

/-- Plain property access `v.k`: throws a `TypeError` on `null`/`undefined`,
yields the field value on objects (or `undefined` when the key is absent),
and `undefined` on other primitives (JavaScript autoboxes them). -/
def JVal.getE (v : JVal) (k : String) : Except JVal JVal :=
  match v with
  | .jnull => .error (typeError k)
  | .jundefined => .error (typeError k)
  | .jobj fields =>
    .ok (match fields.lookup k with
         | some x => x
         | none => .jundefined)
  | _ => .ok .jundefined

/-- Optional-chained property access `v?.k`: `undefined` on a nullish base,
otherwise identical to plain access (which cannot throw then). -/
def JVal.getOpt (v : JVal) (k : String) : JVal :=
  match v with
  | .jnull => .jundefined
  | .jundefined => .jundefined
  | .jobj fields =>
    (match fields.lookup k with
     | some x => x
     | none => .jundefined)
  | _ => .jundefined

/-- Whether an object value carries the key `k` (with any value, falsy
included). -/
def JVal.hasField (v : JVal) (k : String) : Bool :=
  match v with
  | .jobj fields => (fields.lookup k).isSome
  | _ => false

/-- The JavaScript short-circuit disjunction `a || b` on values. -/
def jsOr (a b : JVal) : JVal :=
  if truthy a then a else b

/-- String coercion of a value, as performed by template literals and by
`URLSearchParams.append` (`String(v)`). -/
def jsToString : JVal → String
  | .jnull => "null"
  | .jundefined => "undefined"
  | .jbool true => "true"
  | .jbool false => "false"
  | .jnum n => toString n
  | .jstr s => s
  | .jobj _ => "[object Object]"

/-- Embedding of `handleApiResponse` (utils.js lines 2-15): if
`response.data` is truthy, an envelope with `success=true`, that payload and
`response.data.message || 'Success'`; otherwise the fixed no-data envelope.
The property accesses can throw on a nullish `response`. -/
def handleApiResponse (response : JVal) : Except JVal JVal :=
  match response.getE "data" with
  | .error exn => .error exn
  | .ok d =>
    if truthy d then
      match d.getE "message" with
      | .error exn => .error exn
      | .ok m =>
        .ok (.jobj [("success", .jbool true), ("data", d),
                    ("message", jsOr m (.jstr "Success"))])
    else
      .ok (.jobj [("success", .jbool false), ("data", .jnull),
                  ("message", .jstr "No data received")])

/-- Embedding of `handleApiError` (utils.js lines 18-46): three branches
keyed on the truthiness of `error.response` and `error.request`; the
`console.error` call is elided. `error.response.data?.message` uses optional
chaining on `data` only. -/
def handleApiError (error : JVal) : Except JVal JVal :=
  match error.getE "response" with
  | .error exn => .error exn
  | .ok resp =>
    if truthy resp then
      match resp.getE "status", resp.getE "data" with
      | .ok st, .ok d =>
        .ok (.jobj [("success", .jbool false), ("data", .jnull),
                    ("message", jsOr (d.getOpt "message")
                                     (.jstr ("Error: " ++ jsToString st))),
                    ("status", st)])
      | .error exn, _ => .error exn
      | _, .error exn => .error exn
    else
      match error.getE "request" with
      | .error exn => .error exn
      | .ok req =>
        if truthy req then
          .ok (.jobj [("success", .jbool false), ("data", .jnull),
                      ("message", .jstr "Network error - please check your connection"),
                      ("status", .jnull)])
        else
          match error.getE "message" with
          | .error exn => .error exn
          | .ok m =>
            .ok (.jobj [("success", .jbool false), ("data", .jnull),
                        ("message", jsOr m (.jstr "An unexpected error occurred")),
                        ("status", .jnull)])

/-- Embedding of `apiCall` (utils.js lines 49-56): the awaited operation's
outcome is piped through `handleApiResponse`; any exception — a rejection of
the operation, or a throw inside `handleApiResponse` — is caught and piped
through `handleApiError`, whose own exceptions (nullish `error`) escape. -/
def apiCall (outcome : Except JVal JVal) : Except JVal JVal :=
  match outcome with
  | .ok response =>
    (match handleApiResponse response with
     | .ok envelope => .ok envelope
     | .error exn => handleApiError exn)
  | .error e => handleApiError e

/-- Whether a value has the shape of a ResultEnvelope: `success` is a
boolean field, and `data` and `message` fields are present. -/
def isResultEnvelope (v : JVal) : Bool :=
  (match v.getOpt "success" with
   | .jbool _ => true
   | _ => false)
  && v.hasField "data" && v.hasField "message"

/-- Hexadecimal digit (uppercase), as used by the urlencoded serializer. -/
def hexDigit (n : Nat) : Char :=
  if n < 10 then Char.ofNat (48 + n) else Char.ofNat (55 + n)

/-- Percent-encoding of one byte value as `%XX`. -/
def percentByte (n : Nat) : String :=
  String.mk ['%', hexDigit (n / 16), hexDigit (n % 16)]

/-- UTF-8 byte values of a character, as `Nat`s below 256. -/
def charUtf8Bytes (c : Char) : List Nat :=
  let n := c.toNat
  if n < 128 then [n]
  else if n < 2048 then [192 + n / 64, 128 + n % 64]
  else if n < 65536 then [224 + n / 4096, 128 + (n / 64) % 64, 128 + n % 64]
  else [240 + n / 262144, 128 + (n / 4096) % 64, 128 + (n / 64) % 64, 128 + n % 64]

/-- Whether a character is serialized verbatim by the
`application/x-www-form-urlencoded` serializer: ASCII alphanumerics and
`*`, `-`, `.`, `_`. -/
def urlencodedSafe (c : Char) : Bool :=
  c.isAlphanum && c.toNat < 128 || c == '*' || c == '-' || c == '.' || c == '_'

/-- Encoding of one character under the urlencoded serializer: safe
characters verbatim, space as `+`, everything else as percent-encoded UTF-8
bytes. -/
def urlencodeChar (c : Char) : String :=
  if urlencodedSafe c then String.mk [c]
  else if c == ' ' then "+"
  else String.join ((charUtf8Bytes c).map percentByte)

/-- Model of the host `application/x-www-form-urlencoded` string encoder
used by `URLSearchParams.toString`. -/
def urlencode (s : String) : String :=
  String.join (s.toList.map urlencodeChar)

/-- Model of a `URLSearchParams` container: the ordered list of appended
(name, value) pairs, values already coerced to strings. -/
def URLSearchParams := List (String × String)

/-- Model of `URLSearchParams.append`: coerces the value to a string and
appends the pair at the end. -/
def urlSearchParamsAppend (qp : URLSearchParams) (k : String) (v : JVal) : URLSearchParams :=
  List.append qp [(k, jsToString v)]

/-- Model of `URLSearchParams.toString`: `&`-joined `key=value` pairs, both
sides urlencoded. -/
def urlSearchParamsToString (qp : URLSearchParams) : String :=
  String.intercalate "&" (qp.map (fun p => urlencode p.1 ++ "=" ++ urlencode p.2))

/-- The filter condition of `buildQueryParams` (utils.js line 82): the value
is kept unless it is strictly equal to `null`, `undefined` or `''`. -/
def keepQueryValue : JVal → Bool
  | .jnull => false
  | .jundefined => false
  | .jstr s => s != ""
  | _ => true

/-- Embedding of `buildQueryParams` (utils.js lines 78-88): iterates the
input record in insertion order, appending every kept key, then serializes.
The input record is the ordered association list `params`. -/
def buildQueryParams (params : List (String × JVal)) : String :=
  let queryParams : URLSearchParams :=
    params.foldl
      (fun qp p => if keepQueryValue p.2 then urlSearchParamsAppend qp p.1 p.2 else qp)
      []
  urlSearchParamsToString queryParams

/-- Model of the browser localStorage: a finite map from keys to the stored
strings, as a function (spec.md section 9 suggests exactly this injected
key-value capability). -/
def Storage := String → Option String

/-- Model of `localStorage.getItem`: the stored string, or none (JavaScript
`null`) when the key is absent. -/
def localStorage.getItem (st : Storage) (k : String) : Option String := st k

/-- Model of `localStorage.setItem`. -/
def localStorage.setItem (st : Storage) (k v : String) : Storage :=
  fun q => if q = k then some v else st q

/-- Model of `localStorage.removeItem`. -/
def localStorage.removeItem (st : Storage) (k : String) : Storage :=
  fun q => if q = k then none else st q

/-- The storage with no keys set. -/
def emptyStorage : Storage := fun _ => none

/-- Embedding of `tokenUtils.removeToken` (utils.js line 94). -/
def tokenUtils.removeToken (st : Storage) : Storage :=
  localStorage.removeItem st "authToken"

/-- Helper of `jsSplitDot`: splits a character list at every `'.'`,
accumulating the current segment in reverse. -/
def splitDotAux : List Char → List Char → List String
  | [], acc => [String.mk acc.reverse]
  | c :: rest, acc =>
    if c = '.' then String.mk acc.reverse :: splitDotAux rest []
    else splitDotAux rest (c :: acc)

/-- Model of the JavaScript `s.split('.')`: the (always nonempty) list of
dot-separated segments, so that `"".split('.') = [""]` and
`"a..b".split('.') = ["a", "", "b"]`. -/
def jsSplitDot (s : String) : List String :=
  splitDotAux s.data []

/-- Embedding of `tokenUtils.isTokenExpired` (utils.js lines 95-104).  The
composite `JSON.parse(atob(segment)).exp` of the try-block is injected as
`decodeExp`: `none` models a throw anywhere in the decode (invalid base64,
malformed JSON) and `some exp` a successfully decoded payload with numeric
`exp`; a missing second dot-delimited segment makes `atob(undefined)` throw,
hence yields `true` directly.  `now` is `Date.now()` in milliseconds and
`token` is `none` for a nullish token. -/
def tokenUtils.isTokenExpired (decodeExp : String → Option Int) (now : Int)
    (token : Option String) : Bool :=
  match token with
  | none => true
  | some t =>
    if t = "" then true
    else
      match (jsSplitDot t).get? 1 with
      | none => true
      | some seg =>
        match decodeExp seg with
        | none => true
        | some exp => decide (exp * 1000 < now)

/-- Embedding of `userUtils.getUserData` (utils.js lines 109-112): reads the
`userData` key; a falsy read (absent key or empty string) returns `null`;
otherwise the stored string is fed to `JSON.parse` — with no surrounding
try/catch, so a parse failure (`jsonParse _ = none`) propagates as a thrown
exception, modelled by `.error ()`.  The host `JSON.parse` is injected as
`jsonParse`. -/
def userUtils.getUserData (jsonParse : String → Option JVal) (st : Storage) :
    Except Unit JVal :=
  match localStorage.getItem st "userData" with
  | none => .ok .jnull
  | some s =>
    if s = "" then .ok .jnull
    else
      match jsonParse s with
      | some v => .ok v
      | none => .error ()

/-- Embedding of `userUtils.removeUserData` (utils.js line 114). -/
def userUtils.removeUserData (st : Storage) : Storage :=
  localStorage.removeItem st "userData"

/-- Embedding of `userUtils.clearAllUserData` (utils.js lines 115-120): the
four removals in source order. -/
def userUtils.clearAllUserData (st : Storage) : Storage :=
  localStorage.removeItem
    (localStorage.removeItem (userUtils.removeUserData (tokenUtils.removeToken st))
      "cartData")
    "wishlistData"

/-- Helper of `jsonParseLite`: whether every character is a decimal digit. -/
def jsonDigits : List Char → Bool
  | [] => true
  | c :: rest => c.isDigit && jsonDigits rest

/-- Numeric value of a digit list, most significant first. -/
def jsonDigitsVal (acc : Nat) : List Char → Nat
  | [] => acc
  | c :: rest => jsonDigitsVal (acc * 10 + (c.toNat - 48)) rest

/-- Interior of a JSON string literal whose final character must be the
closing quote: `none` if an escape, a quote or a control character occurs
before it. -/
def jsonStrInner : List Char → Option (List Char)
  | [] => none
  | [c] => if c = '"' then some [] else none
  | c :: rest =>
    if c = '"' || c = '\\' || c.toNat < 32 then none
    else (jsonStrInner rest).map (fun inner => c :: inner)

/-- Conservative model of the host `JSON.parse` on the atomic fragment the
development evaluates it at: `null`, booleans, unsigned integer literals
without a leading zero, and quoted strings free of escapes.  Inputs outside
this fragment — including some the host parser accepts, such as objects,
arrays, fractions and negative numbers — yield `none`; the theorems below
are parametric in the injected parse function and instantiate it with this
model only at inputs where it agrees with the host (every input it is
applied to below is either in the fragment or rejected by the host too). -/
def jsonParseLite (s : String) : Option JVal :=
  if s = "null" then some .jnull
  else if s = "true" then some (.jbool true)
  else if s = "false" then some (.jbool false)
  else
    match s.data with
    | [] => none
    | c :: rest =>
      if jsonDigits (c :: rest) && (c ≠ '0' || rest = []) then
        some (.jnum (Int.ofNat (jsonDigitsVal 0 (c :: rest))))
      else if c = '"' then
        match jsonStrInner rest with
        | some inner => some (.jstr (String.mk inner))
        | none => none
      else none

/-- Outcome of a `retryRequest` run: the returned value, the propagated
(rethrown) failure, or the implicit `undefined` return when the loop body is
never entered. -/
inductive RetryResult (E A : Type) where
  | ok (a : A)
  | err (e : E)
  | undefinedReturn

/-- Observable trace of a `retryRequest` run: its outcome, the number of
times the operation was invoked, and the list of slept delays in order. -/
structure RetryTrace (E A : Type) where
  result : RetryResult E A
  calls : Nat
  delays : List Nat

/-- Loop of `retryRequest`, iteration at zero-based attempt index `i` with
`remaining` iterations allowed (so `remaining = 1` exactly on the final
allowed attempt, `i === maxRetries - 1`): a success returns immediately; a
failure on the final attempt is rethrown; otherwise the loop sleeps
`delay * 2 ^ i` and retries. -/
def retryLoop {E A : Type} (apiFunction : Nat → Except E A) (delay : Nat) :
    Nat → Nat → RetryTrace E A
  | _, 0 => ⟨.undefinedReturn, 0, []⟩
  | i, remaining + 1 =>
    match apiFunction i with
    | .ok result => ⟨.ok result, 1, []⟩
    | .error e =>
      if remaining = 0 then ⟨.err e, 1, []⟩
      else
        let rest := retryLoop apiFunction delay (i + 1) remaining
        ⟨rest.result, rest.calls + 1, delay * 2 ^ i :: rest.delays⟩

/-- Embedding of `retryRequest` (utils.js lines 124-134).  The effectful
operation is modelled by the outcome it would produce at each zero-based
attempt index; `maxRetries` is an `Int` so that nonpositive arguments (loop
never entered, `undefined` returned) are representable; `delay` is the base
delay in milliseconds. -/
def retryRequest {E A : Type} (apiFunction : Nat → Except E A) (maxRetries : Int)
    (delay : Nat) : RetryTrace E A :=
  retryLoop apiFunction delay 0 maxRetries.toNat

/-- Value of the JavaScript `new Error(message)` as far as this development
observes it: an object carrying the message. -/
def mkJsError (message : String) : JVal :=
  .jobj [("message", .jstr message)]

/-- Embedding of the catch blocks of `uploadUtils.uploadImage` and
`uploadUtils.uploadVideo` (utils.js lines 188-193 and 231-236): the logging
line `console.error('Error response:', error.response?.data)` performs a
plain `.response` access on the caught value — only `.data` is
optional-chained — so it throws a `TypeError` when the caught value is
nullish, and that `TypeError` escapes the catch; otherwise the logs are pure
side effects and `throw error` rethrows the caught value unchanged. -/
def uploadCatch (e : JVal) : Except JVal JVal :=
  match e.getE "response" with
  | .error exn => .error exn
  | .ok _ => .error e

/-- Embedding of the result handling of `uploadUtils.uploadImage` (utils.js
lines 154-194) as a function of the transport outcome of
`imageAPI.uploadSingleImage` (FormData construction, the progress callback
and the console logging are effects outside the extraction logic).  Every
property access in the extraction chain is optional-chained in the source;
any exception of the try block — a transport rejection or the no-URL
contract error — is routed through the catch block `uploadCatch`. -/
def uploadUtils.uploadImage (transport : Except JVal JVal) : Except JVal JVal :=
  let tryResult : Except JVal JVal :=
    match transport with
    | .error e => .error e
    | .ok response =>
      let imageUrl :=
        jsOr (((response.getOpt "data").getOpt "data").getOpt "imageUrl")
          (jsOr ((response.getOpt "data").getOpt "imageUrl") (response.getOpt "imageUrl"))
      if truthy imageUrl then
        .ok (.jobj [("data", .jobj [("imageUrl", imageUrl)])])
      else
        .error (mkJsError "Upload completed but no URL returned from server")
  match tryResult with
  | .ok v => .ok v
  | .error e => uploadCatch e

/-- Embedding of the result handling of `uploadUtils.uploadVideo` (utils.js
lines 197-237), identical to `uploadUtils.uploadImage` with the `videoUrl`
field. -/
def uploadUtils.uploadVideo (transport : Except JVal JVal) : Except JVal JVal :=
  let tryResult : Except JVal JVal :=
    match transport with
    | .error e => .error e
    | .ok response =>
      let videoUrl :=
        jsOr (((response.getOpt "data").getOpt "data").getOpt "videoUrl")
          (jsOr ((response.getOpt "data").getOpt "videoUrl") (response.getOpt "videoUrl"))
      if truthy videoUrl then
        .ok (.jobj [("data", .jobj [("videoUrl", videoUrl)])])
      else
        .error (mkJsError "Upload completed but no URL returned from server")
  match tryResult with
  | .ok v => .ok v
  | .error e => uploadCatch e

/-- Truthy values are not nullish, so property access on them cannot
throw. -/
theorem truthy_notNullish (v : JVal) (h : truthy v = true) : v.notNullish = true := by
  cases v <;> simp_all [truthy, JVal.notNullish]

/-- On a non-nullish base, plain property access succeeds and agrees with the
optional-chained access. -/
theorem getE_eq_ok_getOpt (v : JVal) (k : String) (h : v.notNullish = true) :
    v.getE k = .ok (v.getOpt k) := by
  cases v <;> simp_all [JVal.notNullish, JVal.getE, JVal.getOpt]

/-- The disjunction `a || b` is `a` when `a` is truthy. -/
theorem jsOr_pos (a b : JVal) (h : truthy a = true) : jsOr a b = a := by
  simp [jsOr, h]

/-- The disjunction `a || b` is `b` when `a` is falsy. -/
theorem jsOr_neg (a b : JVal) (h : truthy a = false) : jsOr a b = b := by
  simp [jsOr, h]

/-- Folding the append-if-kept step of `buildQueryParams` over the record is
the same as filtering the kept pairs and coercing their values. -/
theorem queryFoldl_eq_filter (ps : List (String × JVal)) (acc : URLSearchParams) :
    ps.foldl
      (fun qp p => if keepQueryValue p.2 then urlSearchParamsAppend qp p.1 p.2 else qp)
      acc
    = List.append acc
        ((ps.filter (fun p => keepQueryValue p.2)).map (fun p => (p.1, jsToString p.2))) := by
  induction ps generalizing acc with
  | nil => simp
  | cons p rest ih =>
    simp only [List.foldl_cons, List.filter_cons]
    by_cases hp : keepQueryValue p.2
    · simp only [hp, if_true, ih, List.map_cons]
      simp [urlSearchParamsAppend, List.append_assoc]
    · simp [hp, ih]

/-- C8: for every input record, `buildQueryParams` produces the
`&`-separated, urlencoded `key=value` string of exactly the pairs whose
values are not strictly `null`, `undefined` or `''`, in insertion order; in
particular the record `a=1, b="", c=null, d="x"` yields a query string
containing only the keys `a` and `d`. -/
theorem buildQueryParams_spec :
    (∀ ps : List (String × JVal),
      buildQueryParams ps
        = String.intercalate "&"
            ((ps.filter (fun p => keepQueryValue p.2)).map
              (fun p => urlencode p.1 ++ "=" ++ urlencode (jsToString p.2))))
    ∧ buildQueryParams [("a", .jnum 1), ("b", .jstr ""), ("c", .jnull), ("d", .jstr "x")]
        = "a=1&d=x" := by
  constructor
  · intro ps
    rw [buildQueryParams, queryFoldl_eq_filter]
    simp [urlSearchParamsToString, List.map_map, Function.comp_def]
  · rfl

/-- C9: whatever the prior storage state, `clearAllUserData` leaves all four
keys `authToken`, `userData`, `cartData` and `wishlistData` absent. -/
theorem clearAllUserData_spec (st : Storage) :
    localStorage.getItem (userUtils.clearAllUserData st) "authToken" = none
    ∧ localStorage.getItem (userUtils.clearAllUserData st) "userData" = none
    ∧ localStorage.getItem (userUtils.clearAllUserData st) "cartData" = none
    ∧ localStorage.getItem (userUtils.clearAllUserData st) "wishlistData" = none := by
  refine ⟨?_, ?_, ?_, ?_⟩ <;>
    simp [userUtils.clearAllUserData, userUtils.removeUserData, tokenUtils.removeToken,
          localStorage.getItem, localStorage.removeItem]

/-- C10: calling `retryRequest` with a nonpositive `maxRetries` never enters
the loop body: the operation is not invoked, nothing is slept, no failure is
raised, and the function returns `undefined`. -/
theorem retryRequest_nonpositive_spec {E A : Type} (apiFunction : Nat → Except E A)
    (maxRetries : Int) (delay : Nat) (h : maxRetries ≤ 0) :
    retryRequest apiFunction maxRetries delay = ⟨.undefinedReturn, 0, []⟩ := by
  rw [retryRequest, Int.toNat_of_nonpos h]
  rfl

/-- Witness for C10 at `maxRetries = 0`. -/
theorem retryRequest_nonpositive_spec_witness :
    retryRequest (fun i => (.ok i : Except Nat Nat)) 0 1000 = ⟨.undefinedReturn, 0, []⟩ :=
  retryRequest_nonpositive_spec (fun i => .ok i) 0 1000 (by decide)

/-- When the operation fails at every attempt, the loop started at attempt
`i` with `m ≥ 1` iterations allowed invokes it exactly `m` times and ends
rethrowing the failure of the final attempt, index `i + m - 1`. -/
theorem retryLoop_all_fail {E A : Type} (apiFunction : Nat → Except E A)
    (errOf : Nat → E) (delay : Nat)
    (hall : ∀ j, apiFunction j = .error (errOf j)) :
    ∀ (m i : Nat), 1 ≤ m →
      (retryLoop apiFunction delay i m).result = .err (errOf (i + m - 1))
      ∧ (retryLoop apiFunction delay i m).calls = m := by
  intro m
  induction m with
  | zero => intro i h; omega
  | succ k ih =>
    intro i _
    rw [retryLoop, hall i]
    by_cases hk : k = 0
    · subst hk
      simp
    · have hk1 : 1 ≤ k := Nat.one_le_iff_ne_zero.mpr hk
      obtain ⟨hres, hcalls⟩ := ih (i + 1) hk1
      simp only [if_neg hk]
      constructor
      · show (retryLoop apiFunction delay (i + 1) k).result = _
        rw [hres]
        have harg : i + 1 + k - 1 = i + (k + 1) - 1 := by omega
        rw [harg]
      · show (retryLoop apiFunction delay (i + 1) k).calls + 1 = k + 1
        rw [hcalls]

/-- C2: with `maxRetries ≥ 3`, an operation failing at the first two
attempts and succeeding at the third makes `retryRequest` return the success
result after exactly 3 invocations, with the two backoff sleeps
`delay * 2 ^ 0 = delay` and `delay * 2 ^ 1 = 2 * delay`; and with
`maxRetries ≥ 1`, an operation failing at every attempt is invoked exactly
`maxRetries` times and the failure of the final attempt (zero-based index
`maxRetries - 1`) is rethrown unchanged. -/
theorem retryRequest_spec :
    (∀ (E A : Type) (apiFunction : Nat → Except E A) (maxRetries : Int) (delay : Nat)
       (e0 e1 : E) (a : A),
       apiFunction 0 = .error e0 → apiFunction 1 = .error e1 → apiFunction 2 = .ok a →
       3 ≤ maxRetries →
       retryRequest apiFunction maxRetries delay = ⟨.ok a, 3, [delay, 2 * delay]⟩)
    ∧ (∀ (E A : Type) (apiFunction : Nat → Except E A) (errOf : Nat → E)
         (maxRetries : Int) (delay : Nat),
         (∀ j, apiFunction j = .error (errOf j)) → 1 ≤ maxRetries →
         (retryRequest apiFunction maxRetries delay).result
             = .err (errOf (maxRetries.toNat - 1))
           ∧ (retryRequest apiFunction maxRetries delay).calls = maxRetries.toNat) := by
  constructor
  · intro E A apiFunction maxRetries delay e0 e1 a h0 h1 h2 h3
    obtain ⟨n, hn⟩ : ∃ n, maxRetries.toNat = n + 3 := ⟨maxRetries.toNat - 3, by omega⟩
    rw [retryRequest, hn]
    rw [retryLoop, h0]
    simp only [Nat.add_eq, Nat.succ_ne_zero, if_neg, reduceIte]
    rw [retryLoop, h1]
    simp only [Nat.succ_ne_zero, reduceIte]
    rw [retryLoop, h2]
    norm_num
    ring
  · intro E A apiFunction errOf maxRetries delay hall h1
    have hm : 1 ≤ maxRetries.toNat := by omega
    have := retryLoop_all_fail apiFunction errOf delay hall maxRetries.toNat 0 hm
    rw [retryRequest]
    simpa using this

/-- Witness for C2: a concrete operation failing twice then returning 42,
and a concrete always-failing operation, both with `maxRetries = 3` and base
delay 100. -/
theorem retryRequest_spec_witness :
    retryRequest (fun i => if i < 2 then .error i else .ok 42) 3 100
        = ⟨.ok 42, 3, [100, 200]⟩
    ∧ (retryRequest (fun i => (.error i : Except Nat Nat)) 3 100).result = .err 2
    ∧ (retryRequest (fun i => (.error i : Except Nat Nat)) 3 100).calls = 3 := by
  refine ⟨?_, ?_, ?_⟩
  · exact retryRequest_spec.1 Nat Nat (fun i => if i < 2 then .error i else .ok 42)
      3 100 0 1 42 rfl rfl rfl (by decide)
  · exact (retryRequest_spec.2 Nat Nat (fun i => .error i) (fun i => i) 3 100
      (fun j => rfl) (by decide)).1
  · exact (retryRequest_spec.2 Nat Nat (fun i => .error i) (fun i => i) 3 100
      (fun j => rfl) (by decide)).2

/-- C6: `isTokenExpired` returns true for an absent (null or empty) token;
true whenever the decode of the second dot-delimited segment fails for any
reason — including the segment not existing at all, which makes
`atob(undefined)` throw — and, on a successful decode, true when
`exp * 1000` is below the current time and false when it is in the future.
The injected `decodeExp` is the `JSON.parse(atob(segment)).exp` composite of
the source's try block. -/
theorem isTokenExpired_spec :
    (∀ (decodeExp : String → Option Int) (now : Int),
       tokenUtils.isTokenExpired decodeExp now none = true)
    ∧ (∀ (decodeExp : String → Option Int) (now : Int),
         tokenUtils.isTokenExpired decodeExp now (some "") = true)
    ∧ (∀ (decodeExp : String → Option Int) (now : Int) (t : String),
         (jsSplitDot t)[1]? = none →
         tokenUtils.isTokenExpired decodeExp now (some t) = true)
    ∧ (∀ (decodeExp : String → Option Int) (now : Int) (t seg : String),
         (jsSplitDot t)[1]? = some seg → decodeExp seg = none →
         tokenUtils.isTokenExpired decodeExp now (some t) = true)
    ∧ (∀ (decodeExp : String → Option Int) (now : Int) (t seg : String) (exp : Int),
         (jsSplitDot t)[1]? = some seg → decodeExp seg = some exp →
         exp * 1000 < now →
         tokenUtils.isTokenExpired decodeExp now (some t) = true)
    ∧ (∀ (decodeExp : String → Option Int) (now : Int) (t seg : String) (exp : Int),
         (jsSplitDot t)[1]? = some seg → decodeExp seg = some exp →
         now < exp * 1000 →
         tokenUtils.isTokenExpired decodeExp now (some t) = false) := by
  refine ⟨fun dec now => rfl, fun dec now => rfl, ?_, ?_, ?_, ?_⟩
  · intro dec now t hseg
    by_cases ht : t = ""
    · subst ht; rfl
    · simp only [tokenUtils.isTokenExpired, ht, if_false, List.get?_eq_getElem?, hseg]
  · intro dec now t seg hseg hdec
    by_cases ht : t = ""
    · subst ht; rfl
    · simp only [tokenUtils.isTokenExpired, ht, if_false, List.get?_eq_getElem?, hseg, hdec]
  · intro dec now t seg exp hseg hdec hlt
    by_cases ht : t = ""
    · subst ht
      simp [jsSplitDot, splitDotAux] at hseg
    · simp only [tokenUtils.isTokenExpired, ht, if_false, List.get?_eq_getElem?, hseg, hdec]
      simp [hlt]
  · intro dec now t seg exp hseg hdec hlt
    by_cases ht : t = ""
    · subst ht
      simp [jsSplitDot, splitDotAux] at hseg
    · simp only [tokenUtils.isTokenExpired, ht, if_false, List.get?_eq_getElem?, hseg, hdec]
      simp
      omega

/-- Witness for C6 at the token `"h.p.s"` (second segment `"p"`), the
tokenless cases, a dotless token, a failing decode, and both orientations of
the expiry comparison. -/
theorem isTokenExpired_spec_witness :
    tokenUtils.isTokenExpired (fun _ => some 10) 20000 none = true
    ∧ tokenUtils.isTokenExpired (fun _ => some 10) 20000 (some "") = true
    ∧ tokenUtils.isTokenExpired (fun _ => some 10) 20000 (some "nodots") = true
    ∧ tokenUtils.isTokenExpired (fun _ => none) 20000 (some "h.p.s") = true
    ∧ tokenUtils.isTokenExpired (fun _ => some 10) 20000 (some "h.p.s") = true
    ∧ tokenUtils.isTokenExpired (fun _ => some 10) 5000 (some "h.p.s") = false := by
  refine ⟨?_, ?_, ?_, ?_, ?_, ?_⟩
  · exact isTokenExpired_spec.1 (fun _ => some 10) 20000
  · exact isTokenExpired_spec.2.1 (fun _ => some 10) 20000
  · exact isTokenExpired_spec.2.2.1 (fun _ => some 10) 20000 "nodots" rfl
  · exact isTokenExpired_spec.2.2.2.1 (fun _ => none) 20000 "h.p.s" "p" rfl rfl
  · exact isTokenExpired_spec.2.2.2.2.1 (fun _ => some 10) 20000 "h.p.s" "p" 10
      rfl rfl (by norm_num)
  · exact isTokenExpired_spec.2.2.2.2.2 (fun _ => some 10) 5000 "h.p.s" "p" 10
      rfl rfl (by norm_num)

/-- C3 (amended): `getUserData` returns the parse of the stored string when
it is present, nonempty and well-formed; returns `null` when the key is
absent or the stored string is empty (falsy); and when the stored string is
nonempty but malformed, `JSON.parse` throws and — with no try/catch in the
source — the failure propagates to the caller instead of yielding `null`. -/
theorem getUserData_spec :
    (∀ (jsonParse : String → Option JVal) (st : Storage),
       localStorage.getItem st "userData" = none →
       userUtils.getUserData jsonParse st = .ok .jnull)
    ∧ (∀ (jsonParse : String → Option JVal) (st : Storage),
         localStorage.getItem st "userData" = some "" →
         userUtils.getUserData jsonParse st = .ok .jnull)
    ∧ (∀ (jsonParse : String → Option JVal) (st : Storage) (s : String) (v : JVal),
         localStorage.getItem st "userData" = some s → s ≠ "" → jsonParse s = some v →
         userUtils.getUserData jsonParse st = .ok v)
    ∧ (∀ (jsonParse : String → Option JVal) (st : Storage) (s : String),
         localStorage.getItem st "userData" = some s → s ≠ "" → jsonParse s = none →
         userUtils.getUserData jsonParse st = .error ()) := by
  refine ⟨?_, ?_, ?_, ?_⟩
  · intro p st h
    simp [userUtils.getUserData, h]
  · intro p st h
    simp [userUtils.getUserData, h]
  · intro p st s v h hs hp
    simp [userUtils.getUserData, h, hs, hp]
  · intro p st s h hs hp
    simp [userUtils.getUserData, h, hs, hp]

/-- Witness for C3: an absent key, the stored atoms `"true"` and `""`, and
the malformed stored string `"not json"`, under the concrete parse model. -/
theorem getUserData_spec_witness :
    userUtils.getUserData jsonParseLite emptyStorage = .ok .jnull
    ∧ userUtils.getUserData jsonParseLite
        (localStorage.setItem emptyStorage "userData" "") = .ok .jnull
    ∧ userUtils.getUserData jsonParseLite
        (localStorage.setItem emptyStorage "userData" "true") = .ok (.jbool true)
    ∧ userUtils.getUserData jsonParseLite
        (localStorage.setItem emptyStorage "userData" "not json") = .error () := by
  refine ⟨?_, ?_, ?_, ?_⟩
  · exact getUserData_spec.1 jsonParseLite emptyStorage rfl
  · exact getUserData_spec.2.1 jsonParseLite
      (localStorage.setItem emptyStorage "userData" "") rfl
  · exact getUserData_spec.2.2.1 jsonParseLite
      (localStorage.setItem emptyStorage "userData" "true") "true" (.jbool true)
      rfl (by decide) rfl
  · exact getUserData_spec.2.2.2 jsonParseLite
      (localStorage.setItem emptyStorage "userData" "not json") "not json"
      rfl (by decide) rfl

/-- Counterexample to C3 as stated: with `"not json"` stored under
`userData` — a string the host `JSON.parse` rejects, as does its model
here — `getUserData` does not return `null`; the decode failure propagates. -/
theorem getUserData_malformed_cex :
    jsonParseLite "not json" = none
    ∧ userUtils.getUserData jsonParseLite
        (localStorage.setItem emptyStorage "userData" "not json") = .error ()
    ∧ (userUtils.getUserData jsonParseLite
        (localStorage.setItem emptyStorage "userData" "not json") = .ok .jnull → False) :=
  ⟨rfl, rfl, fun h => Except.noConfusion h⟩

/-- C1 (amended): for every non-nullish response whose `data` field is
truthy, `handleApiResponse` returns success=true, the payload unchanged, and
message equal to `data.message` when that is truthy and `"Success"`
otherwise; when the `data` field is absent or falsy (`0`, `""`, `false`,
`null`, `undefined`) it returns success=false, data=null,
message="No data received". -/
theorem handleApiResponse_truthiness_spec :
    (∀ response : JVal, response.notNullish = true →
       truthy (response.getOpt "data") = true →
       truthy ((response.getOpt "data").getOpt "message") = true →
       handleApiResponse response
         = .ok (.jobj [("success", .jbool true), ("data", response.getOpt "data"),
                       ("message", (response.getOpt "data").getOpt "message")]))
    ∧ (∀ response : JVal, response.notNullish = true →
       truthy (response.getOpt "data") = true →
       truthy ((response.getOpt "data").getOpt "message") = false →
       handleApiResponse response
         = .ok (.jobj [("success", .jbool true), ("data", response.getOpt "data"),
                       ("message", .jstr "Success")]))
    ∧ (∀ response : JVal, response.notNullish = true →
       truthy (response.getOpt "data") = false →
       handleApiResponse response
         = .ok (.jobj [("success", .jbool false), ("data", .jnull),
                       ("message", .jstr "No data received")])) := by
  refine ⟨?_, ?_, ?_⟩
  · intro r h hd hm
    have h1 := getE_eq_ok_getOpt r "data" h
    have h2 := getE_eq_ok_getOpt (r.getOpt "data") "message" (truthy_notNullish _ hd)
    simp only [handleApiResponse, h1, hd, if_true, h2]
    rw [jsOr_pos _ _ hm]
  · intro r h hd hm
    have h1 := getE_eq_ok_getOpt r "data" h
    have h2 := getE_eq_ok_getOpt (r.getOpt "data") "message" (truthy_notNullish _ hd)
    simp only [handleApiResponse, h1, hd, if_true, h2]
    rw [jsOr_neg _ _ hm]
  · intro r h hd
    have h1 := getE_eq_ok_getOpt r "data" h
    simp only [handleApiResponse, h1, hd, Bool.false_eq_true, if_false]

/-- Counterexample to C1 as stated: the response `{data: 0}` has a `data`
field, yet `handleApiResponse` takes the no-data branch (the source tests
truthiness, not presence), returning success=false instead of success=true
with the payload preserved. -/
theorem handleApiResponse_data_field_cex :
    JVal.hasField (.jobj [("data", .jnum 0)]) "data" = true
    ∧ handleApiResponse (.jobj [("data", .jnum 0)])
        = .ok (.jobj [("success", .jbool false), ("data", .jnull),
                      ("message", .jstr "No data received")])
    ∧ ((JVal.jobj [("success", .jbool false), ("data", .jnull),
          ("message", .jstr "No data received")]).getOpt "success" = .jbool true → False) :=
  ⟨rfl, rfl, fun h => Bool.noConfusion (JVal.jbool.inj h)⟩

/-- Witness for C1: a truthy payload with truthy message, a truthy payload
without a message, and a response with no `data` field. -/
theorem handleApiResponse_truthiness_spec_witness :
    handleApiResponse (.jobj [("data", .jobj [("message", .jstr "hi")])])
        = .ok (.jobj [("success", .jbool true),
                      ("data", .jobj [("message", .jstr "hi")]),
                      ("message", .jstr "hi")])
    ∧ handleApiResponse (.jobj [("data", .jnum 7)])
        = .ok (.jobj [("success", .jbool true), ("data", .jnum 7),
                      ("message", .jstr "Success")])
    ∧ handleApiResponse (.jobj [("ok", .jbool true)])
        = .ok (.jobj [("success", .jbool false), ("data", .jnull),
                      ("message", .jstr "No data received")]) := by
  refine ⟨?_, ?_, ?_⟩
  · exact handleApiResponse_truthiness_spec.1
      (.jobj [("data", .jobj [("message", .jstr "hi")])]) rfl rfl rfl
  · exact handleApiResponse_truthiness_spec.2.1 (.jobj [("data", .jnum 7)]) rfl rfl rfl
  · exact handleApiResponse_truthiness_spec.2.2 (.jobj [("ok", .jbool true)]) rfl rfl

/-- C5 (amended): `handleApiError` distinguishes, in order: a truthy
`error.response` — status copied from it, message the body's
`data?.message` when truthy else the template `"Error: <status>"`; a truthy
`error.request` with falsy response — `status=null` and the fixed network
message; anything else — `status=null` and the error's own truthy `message`
or the generic fallback.  (The source tests truthiness, not presence.) -/
theorem handleApiError_branches_spec :
    (∀ e : JVal, e.notNullish = true →
       truthy (e.getOpt "response") = true →
       truthy (((e.getOpt "response").getOpt "data").getOpt "message") = true →
       handleApiError e
         = .ok (.jobj [("success", .jbool false), ("data", .jnull),
                       ("message", ((e.getOpt "response").getOpt "data").getOpt "message"),
                       ("status", (e.getOpt "response").getOpt "status")]))
    ∧ (∀ e : JVal, e.notNullish = true →
       truthy (e.getOpt "response") = true →
       truthy (((e.getOpt "response").getOpt "data").getOpt "message") = false →
       handleApiError e
         = .ok (.jobj [("success", .jbool false), ("data", .jnull),
                       ("message",
                        .jstr ("Error: " ++ jsToString ((e.getOpt "response").getOpt "status"))),
                       ("status", (e.getOpt "response").getOpt "status")]))
    ∧ (∀ e : JVal, e.notNullish = true →
       truthy (e.getOpt "response") = false →
       truthy (e.getOpt "request") = true →
       handleApiError e
         = .ok (.jobj [("success", .jbool false), ("data", .jnull),
                       ("message", .jstr "Network error - please check your connection"),
                       ("status", .jnull)]))
    ∧ (∀ e : JVal, e.notNullish = true →
       truthy (e.getOpt "response") = false →
       truthy (e.getOpt "request") = false →
       truthy (e.getOpt "message") = true →
       handleApiError e
         = .ok (.jobj [("success", .jbool false), ("data", .jnull),
                       ("message", e.getOpt "message"), ("status", .jnull)]))
    ∧ (∀ e : JVal, e.notNullish = true →
       truthy (e.getOpt "response") = false →
       truthy (e.getOpt "request") = false →
       truthy (e.getOpt "message") = false →
       handleApiError e
         = .ok (.jobj [("success", .jbool false), ("data", .jnull),
                       ("message", .jstr "An unexpected error occurred"),
                       ("status", .jnull)])) := by
  refine ⟨?_, ?_, ?_, ?_, ?_⟩
  · intro e h hresp hm
    have h1 := getE_eq_ok_getOpt e "response" h
    have hr := truthy_notNullish _ hresp
    have h2 := getE_eq_ok_getOpt (e.getOpt "response") "status" hr
    have h3 := getE_eq_ok_getOpt (e.getOpt "response") "data" hr
    simp only [handleApiError, h1, hresp, if_true, h2, h3]
    rw [jsOr_pos _ _ hm]
  · intro e h hresp hm
    have h1 := getE_eq_ok_getOpt e "response" h
    have hr := truthy_notNullish _ hresp
    have h2 := getE_eq_ok_getOpt (e.getOpt "response") "status" hr
    have h3 := getE_eq_ok_getOpt (e.getOpt "response") "data" hr
    simp only [handleApiError, h1, hresp, if_true, h2, h3]
    rw [jsOr_neg _ _ hm]
  · intro e h hresp hreq
    have h1 := getE_eq_ok_getOpt e "response" h
    have h2 := getE_eq_ok_getOpt e "request" h
    simp only [handleApiError, h1, hresp, Bool.false_eq_true, if_false, h2, hreq, if_true]
  · intro e h hresp hreq hm
    have h1 := getE_eq_ok_getOpt e "response" h
    have h2 := getE_eq_ok_getOpt e "request" h
    have h3 := getE_eq_ok_getOpt e "message" h
    simp only [handleApiError, h1, hresp, Bool.false_eq_true, if_false, h2, hreq, h3]
    rw [jsOr_pos _ _ hm]
  · intro e h hresp hreq hm
    have h1 := getE_eq_ok_getOpt e "response" h
    have h2 := getE_eq_ok_getOpt e "request" h
    have h3 := getE_eq_ok_getOpt e "message" h
    simp only [handleApiError, h1, hresp, Bool.false_eq_true, if_false, h2, hreq, h3]
    rw [jsOr_neg _ _ hm]

/-- Counterexample to C5 as stated: for the error
`{response: {status: 500, data: {message: ""}}}` the body's `message` field
is present, yet `handleApiError` ignores it (the source tests truthiness,
not presence) and falls back to `"Error: 500"`, which differs from the
present body message `""`. -/
theorem handleApiError_present_message_cex :
    (((JVal.jobj [("response", .jobj [("status", .jnum 500),
          ("data", .jobj [("message", .jstr "")])])]).getOpt
            "response").getOpt "data").hasField "message" = true
    ∧ handleApiError (.jobj [("response", .jobj [("status", .jnum 500),
          ("data", .jobj [("message", .jstr "")])])])
        = .ok (.jobj [("success", .jbool false), ("data", .jnull),
                      ("message", .jstr "Error: 500"), ("status", .jnum 500)])
    ∧ ((JVal.jstr "Error: 500") = .jstr "" → False) :=
  ⟨rfl, rfl, fun h => absurd (JVal.jstr.inj h) (by decide)⟩

/-- Witness for C5: the spec's 404-with-body-message and 500-without-body
examples, a request-only error, an error with its own message, and a bare
object. -/
theorem handleApiError_branches_spec_witness :
    handleApiError (.jobj [("response", .jobj [("status", .jnum 404),
          ("data", .jobj [("message", .jstr "x")])])])
        = .ok (.jobj [("success", .jbool false), ("data", .jnull),
                      ("message", .jstr "x"), ("status", .jnum 404)])
    ∧ handleApiError (.jobj [("response", .jobj [("status", .jnum 500)])])
        = .ok (.jobj [("success", .jbool false), ("data", .jnull),
                      ("message", .jstr "Error: 500"), ("status", .jnum 500)])
    ∧ handleApiError (.jobj [("request", .jobj [])])
        = .ok (.jobj [("success", .jbool false), ("data", .jnull),
                      ("message", .jstr "Network error - please check your connection"),
                      ("status", .jnull)])
    ∧ handleApiError (.jobj [("message", .jstr "boom")])
        = .ok (.jobj [("success", .jbool false), ("data", .jnull),
                      ("message", .jstr "boom"), ("status", .jnull)])
    ∧ handleApiError (.jobj [])
        = .ok (.jobj [("success", .jbool false), ("data", .jnull),
                      ("message", .jstr "An unexpected error occurred"),
                      ("status", .jnull)]) := by
  refine ⟨?_, ?_, ?_, ?_, ?_⟩
  · exact handleApiError_branches_spec.1
      (.jobj [("response", .jobj [("status", .jnum 404),
        ("data", .jobj [("message", .jstr "x")])])]) rfl rfl rfl
  · exact handleApiError_branches_spec.2.1
      (.jobj [("response", .jobj [("status", .jnum 500)])]) rfl rfl rfl
  · exact handleApiError_branches_spec.2.2.1 (.jobj [("request", .jobj [])]) rfl rfl rfl
  · exact handleApiError_branches_spec.2.2.2.1
      (.jobj [("message", .jstr "boom")]) rfl rfl rfl rfl
  · exact handleApiError_branches_spec.2.2.2.2 (.jobj []) rfl rfl rfl rfl

/-- Every object whose field list starts with a boolean `success`, then
`data`, then `message` has the ResultEnvelope shape. -/
theorem isResultEnvelope_cons (b : Bool) (x y : JVal) (rest : List (String × JVal)) :
    isResultEnvelope
      (.jobj (("success", .jbool b) :: ("data", x) :: ("message", y) :: rest)) = true := by
  simp [isResultEnvelope, JVal.getOpt, JVal.hasField, List.lookup]

/-- On a non-nullish response, `handleApiResponse` never throws: it returns
an envelope of the ResultEnvelope shape. -/
theorem handleApiResponse_ok_of_notNullish (r : JVal) (h : r.notNullish = true) :
    ∃ env, handleApiResponse r = .ok env ∧ isResultEnvelope env = true := by
  have h1 := getE_eq_ok_getOpt r "data" h
  by_cases hd : truthy (r.getOpt "data")
  · have h2 := getE_eq_ok_getOpt (r.getOpt "data") "message" (truthy_notNullish _ hd)
    have heq : handleApiResponse r
        = .ok (.jobj [("success", .jbool true), ("data", r.getOpt "data"),
                      ("message", jsOr ((r.getOpt "data").getOpt "message")
                                       (.jstr "Success"))]) := by
      simp only [handleApiResponse, h1, hd, if_true, h2]
    exact ⟨_, heq, isResultEnvelope_cons true _ _ []⟩
  · rw [Bool.not_eq_true] at hd
    have heq : handleApiResponse r
        = .ok (.jobj [("success", .jbool false), ("data", .jnull),
                      ("message", .jstr "No data received")]) := by
      simp only [handleApiResponse, h1, hd, Bool.false_eq_true, if_false]
    exact ⟨_, heq, isResultEnvelope_cons false _ _ []⟩

/-- On a non-nullish error value, `handleApiError` never throws: it returns
an envelope of the ResultEnvelope shape. -/
theorem handleApiError_ok_of_notNullish (e : JVal) (h : e.notNullish = true) :
    ∃ env, handleApiError e = .ok env ∧ isResultEnvelope env = true := by
  have h1 := getE_eq_ok_getOpt e "response" h
  by_cases hresp : truthy (e.getOpt "response")
  · have hr := truthy_notNullish _ hresp
    have h2 := getE_eq_ok_getOpt (e.getOpt "response") "status" hr
    have h3 := getE_eq_ok_getOpt (e.getOpt "response") "data" hr
    have heq : handleApiError e
        = .ok (.jobj [("success", .jbool false), ("data", .jnull),
                      ("message", jsOr (((e.getOpt "response").getOpt "data").getOpt "message")
                        (.jstr ("Error: " ++ jsToString ((e.getOpt "response").getOpt "status")))),
                      ("status", (e.getOpt "response").getOpt "status")]) := by
      simp only [handleApiError, h1, hresp, if_true, h2, h3]
    exact ⟨_, heq, isResultEnvelope_cons false _ _ _⟩
  · rw [Bool.not_eq_true] at hresp
    have h2 := getE_eq_ok_getOpt e "request" h
    by_cases hreq : truthy (e.getOpt "request")
    · have heq : handleApiError e
          = .ok (.jobj [("success", .jbool false), ("data", .jnull),
                        ("message", .jstr "Network error - please check your connection"),
                        ("status", .jnull)]) := by
        simp only [handleApiError, h1, hresp, Bool.false_eq_true, if_false, h2, hreq, if_true]
      exact ⟨_, heq, isResultEnvelope_cons false _ _ _⟩
    · rw [Bool.not_eq_true] at hreq
      have h3 := getE_eq_ok_getOpt e "message" h
      have heq : handleApiError e
          = .ok (.jobj [("success", .jbool false), ("data", .jnull),
                        ("message", jsOr (e.getOpt "message")
                                         (.jstr "An unexpected error occurred")),
                        ("status", .jnull)]) := by
        simp only [handleApiError, h1, hresp, Bool.false_eq_true, if_false, h2, hreq, h3]
      exact ⟨_, heq, isResultEnvelope_cons false _ _ _⟩

/-- C4 (amended): `apiCall` returns `handleApiResponse` of a non-nullish
resolved value and `handleApiError` of a non-nullish rejection value — in
both cases an actual return (`.isOk`) of a ResultEnvelope-shaped object; a
nullish resolved value makes `handleApiResponse` throw inside the try block,
so `apiCall` returns `handleApiError` of that `TypeError`; but a nullish
rejection value makes `handleApiError` itself throw inside the catch block,
and `apiCall` rejects with that `TypeError` — so it is not true that it
never rejects.  Whenever it does return, the value is a ResultEnvelope. -/
theorem apiCall_envelope_spec :
    (∀ r : JVal, r.notNullish = true →
       apiCall (.ok r) = handleApiResponse r ∧ (handleApiResponse r).isOk = true)
    ∧ (∀ r : JVal, r.notNullish = false →
       apiCall (.ok r) = handleApiError (typeError "data")
         ∧ (handleApiError (typeError "data")).isOk = true)
    ∧ (∀ e : JVal, e.notNullish = true →
       apiCall (.error e) = handleApiError e ∧ (handleApiError e).isOk = true)
    ∧ (∀ e : JVal, e.notNullish = false →
       apiCall (.error e) = .error (typeError "response"))
    ∧ (∀ (outcome : Except JVal JVal) (env : JVal),
       apiCall outcome = .ok env → isResultEnvelope env = true) := by
  refine ⟨?_, ?_, ?_, ?_, ?_⟩
  · intro r h
    obtain ⟨env, henv, _⟩ := handleApiResponse_ok_of_notNullish r h
    refine ⟨?_, by rw [henv]; rfl⟩
    simp [apiCall, henv]
  · intro r h
    have hcall : apiCall (.ok r) = handleApiError (typeError "data") := by
      cases r <;> first | rfl | simp [JVal.notNullish] at h
    obtain ⟨env, henv, _⟩ := handleApiError_ok_of_notNullish (typeError "data") rfl
    exact ⟨hcall, by rw [henv]; rfl⟩
  · intro e h
    obtain ⟨env, henv, _⟩ := handleApiError_ok_of_notNullish e h
    exact ⟨rfl, by rw [henv]; rfl⟩
  · intro e h
    cases e <;> first | rfl | simp [JVal.notNullish] at h
  · intro outcome env h
    cases outcome with
    | ok r =>
      by_cases hr : r.notNullish = true
      · obtain ⟨env2, henv, hshape⟩ := handleApiResponse_ok_of_notNullish r hr
        simp only [apiCall, henv] at h
        cases h
        exact hshape
      · rw [Bool.not_eq_true] at hr
        have hcall : apiCall (.ok r) = handleApiError (typeError "data") := by
          cases r <;> first | rfl | simp [JVal.notNullish] at hr
        obtain ⟨env2, henv, hshape⟩ := handleApiError_ok_of_notNullish (typeError "data") rfl
        rw [hcall, henv] at h
        cases h
        exact hshape
    | error e =>
      by_cases he : e.notNullish = true
      · obtain ⟨env2, henv, hshape⟩ := handleApiError_ok_of_notNullish e he
        have hcall : apiCall (.error e) = handleApiError e := rfl
        rw [hcall, henv] at h
        cases h
        exact hshape
      · rw [Bool.not_eq_true] at he
        have hcall : apiCall (.error e) = .error (typeError "response") := by
          cases e <;> first | rfl | simp [JVal.notNullish] at he
        rw [hcall] at h
        exact Except.noConfusion h

/-- Counterexample to C4 as stated: an operation rejecting with `null` is a
rejection "with any value", yet inside the catch block
`handleApiError(null)` reads `null.response` and throws, so `apiCall` itself
rejects with the `TypeError` instead of returning an envelope. -/
theorem apiCall_nullish_rejection_cex :
    apiCall (.error .jnull) = .error (typeError "response")
    ∧ (∀ env : JVal, apiCall (.error .jnull) = .ok env → False) :=
  ⟨rfl, fun _ h => Except.noConfusion h⟩

/-- Witness for C4 at a concrete resolved object, a `null` resolution, a
concrete rejection object, and an `undefined` rejection. -/
theorem apiCall_envelope_spec_witness :
    (apiCall (.ok (.jobj [("data", .jnum 7)]))
        = handleApiResponse (.jobj [("data", .jnum 7)])
      ∧ (handleApiResponse (.jobj [("data", .jnum 7)])).isOk = true)
    ∧ (apiCall (.ok .jnull) = handleApiError (typeError "data")
        ∧ (handleApiError (typeError "data")).isOk = true)
    ∧ (apiCall (.error (.jobj [("message", .jstr "boom")]))
        = handleApiError (.jobj [("message", .jstr "boom")])
      ∧ (handleApiError (.jobj [("message", .jstr "boom")])).isOk = true)
    ∧ apiCall (.error .jundefined) = .error (typeError "response")
    ∧ isResultEnvelope (.jobj [("success", .jbool false), ("data", .jnull),
        ("message", .jstr "No data received")]) = true := by
  refine ⟨?_, ?_, ?_, ?_, ?_⟩
  · exact apiCall_envelope_spec.1 (.jobj [("data", .jnum 7)]) rfl
  · exact apiCall_envelope_spec.2.1 .jnull rfl
  · exact apiCall_envelope_spec.2.2.1 (.jobj [("message", .jstr "boom")]) rfl
  · exact apiCall_envelope_spec.2.2.2.1 .jundefined rfl
  · exact apiCall_envelope_spec.2.2.2.2 (.ok (.jobj [("x", .jnum 1)]))
      (.jobj [("success", .jbool false), ("data", .jnull),
              ("message", .jstr "No data received")]) rfl

/-- C7 (amended): `uploadImage` and `uploadVideo` propagate a transport
failure with a non-nullish error value unchanged, but a nullish transport
error makes the catch block's plain `error.response` access throw, so the
caller receives that `TypeError` instead of the original failure; on a
transport success they check exactly three response shapes in order —
`data.data.<field>Url`, `data.<field>Url`, `<field>Url` — return
`{data: {<field>Url}}` with the first truthy URL found, and throw the
explicit "no URL returned" error when none of the three yields one. -/
theorem upload_url_extraction_spec :
    (∀ e : JVal, e.notNullish = true → uploadUtils.uploadImage (.error e) = .error e)
    ∧ (∀ e : JVal, e.notNullish = false →
        uploadUtils.uploadImage (.error e) = .error (typeError "response"))
    ∧ (∀ r : JVal,
        truthy (((r.getOpt "data").getOpt "data").getOpt "imageUrl") = true →
        uploadUtils.uploadImage (.ok r)
          = .ok (.jobj [("data", .jobj [("imageUrl",
              ((r.getOpt "data").getOpt "data").getOpt "imageUrl")])]))
    ∧ (∀ r : JVal,
        truthy (((r.getOpt "data").getOpt "data").getOpt "imageUrl") = false →
        truthy ((r.getOpt "data").getOpt "imageUrl") = true →
        uploadUtils.uploadImage (.ok r)
          = .ok (.jobj [("data", .jobj [("imageUrl",
              (r.getOpt "data").getOpt "imageUrl")])]))
    ∧ (∀ r : JVal,
        truthy (((r.getOpt "data").getOpt "data").getOpt "imageUrl") = false →
        truthy ((r.getOpt "data").getOpt "imageUrl") = false →
        truthy (r.getOpt "imageUrl") = true →
        uploadUtils.uploadImage (.ok r)
          = .ok (.jobj [("data", .jobj [("imageUrl", r.getOpt "imageUrl")])]))
    ∧ (∀ r : JVal,
        truthy (((r.getOpt "data").getOpt "data").getOpt "imageUrl") = false →
        truthy ((r.getOpt "data").getOpt "imageUrl") = false →
        truthy (r.getOpt "imageUrl") = false →
        uploadUtils.uploadImage (.ok r)
          = .error (mkJsError "Upload completed but no URL returned from server"))
    ∧ (∀ e : JVal, e.notNullish = true → uploadUtils.uploadVideo (.error e) = .error e)
    ∧ (∀ e : JVal, e.notNullish = false →
        uploadUtils.uploadVideo (.error e) = .error (typeError "response"))
    ∧ (∀ r : JVal,
        truthy (((r.getOpt "data").getOpt "data").getOpt "videoUrl") = true →
        uploadUtils.uploadVideo (.ok r)
          = .ok (.jobj [("data", .jobj [("videoUrl",
              ((r.getOpt "data").getOpt "data").getOpt "videoUrl")])]))
    ∧ (∀ r : JVal,
        truthy (((r.getOpt "data").getOpt "data").getOpt "videoUrl") = false →
        truthy ((r.getOpt "data").getOpt "videoUrl") = true →
        uploadUtils.uploadVideo (.ok r)
          = .ok (.jobj [("data", .jobj [("videoUrl",
              (r.getOpt "data").getOpt "videoUrl")])]))
    ∧ (∀ r : JVal,
        truthy (((r.getOpt "data").getOpt "data").getOpt "videoUrl") = false →
        truthy ((r.getOpt "data").getOpt "videoUrl") = false →
        truthy (r.getOpt "videoUrl") = true →
        uploadUtils.uploadVideo (.ok r)
          = .ok (.jobj [("data", .jobj [("videoUrl", r.getOpt "videoUrl")])]))
    ∧ (∀ r : JVal,
        truthy (((r.getOpt "data").getOpt "data").getOpt "videoUrl") = false →
        truthy ((r.getOpt "data").getOpt "videoUrl") = false →
        truthy (r.getOpt "videoUrl") = false →
        uploadUtils.uploadVideo (.ok r)
          = .error (mkJsError "Upload completed but no URL returned from server")) := by
  refine ⟨?_, ?_, ?_, ?_, ?_, ?_, ?_, ?_, ?_, ?_, ?_, ?_⟩
  · intro e h
    simp only [uploadUtils.uploadImage, uploadCatch, getE_eq_ok_getOpt e "response" h]
  · intro e h
    cases e <;> first | rfl | simp [JVal.notNullish] at h
  · intro r h1
    simp only [uploadUtils.uploadImage, jsOr_pos _ _ h1, h1, if_true]
  · intro r h1 h2
    simp only [uploadUtils.uploadImage, jsOr_neg _ _ h1, jsOr_pos _ _ h2, h2, if_true]
  · intro r h1 h2 h3
    simp only [uploadUtils.uploadImage, jsOr_neg _ _ h1, jsOr_neg _ _ h2, h3, if_true]
  · intro r h1 h2 h3
    simp only [uploadUtils.uploadImage, jsOr_neg _ _ h1, jsOr_neg _ _ h2, h3,
               Bool.false_eq_true, if_false]
    rfl
  · intro e h
    simp only [uploadUtils.uploadVideo, uploadCatch, getE_eq_ok_getOpt e "response" h]
  · intro e h
    cases e <;> first | rfl | simp [JVal.notNullish] at h
  · intro r h1
    simp only [uploadUtils.uploadVideo, jsOr_pos _ _ h1, h1, if_true]
  · intro r h1 h2
    simp only [uploadUtils.uploadVideo, jsOr_neg _ _ h1, jsOr_pos _ _ h2, h2, if_true]
  · intro r h1 h2 h3
    simp only [uploadUtils.uploadVideo, jsOr_neg _ _ h1, jsOr_neg _ _ h2, h3, if_true]
  · intro r h1 h2 h3
    simp only [uploadUtils.uploadVideo, jsOr_neg _ _ h1, jsOr_neg _ _ h2, h3,
               Bool.false_eq_true, if_false]
    rfl

/-- Counterexample to C7 as stated: a transport rejection with `null` is a
transport failure, yet the catch block's `error.response` read throws on it,
so both upload helpers reject with the `TypeError` — not the original
failure unchanged. -/
theorem upload_nullish_rejection_cex :
    uploadUtils.uploadImage (.error .jnull) = .error (typeError "response")
    ∧ (uploadUtils.uploadImage (.error .jnull) = .error .jnull → False)
    ∧ uploadUtils.uploadVideo (.error .jnull) = .error (typeError "response")
    ∧ (uploadUtils.uploadVideo (.error .jnull) = .error .jnull → False) :=
  ⟨rfl, fun h => JVal.noConfusion (Except.error.inj h),
   rfl, fun h => JVal.noConfusion (Except.error.inj h)⟩

/-- Witness for C7: a propagated non-nullish transport error and a
transformed nullish one, and concrete responses exercising every shape in
the fallback chain plus the no-URL failure, for both clients. -/
theorem upload_url_extraction_spec_witness :
    uploadUtils.uploadImage (.error (.jstr "boom")) = .error (.jstr "boom")
    ∧ uploadUtils.uploadImage (.error .jundefined) = .error (typeError "response")
    ∧ uploadUtils.uploadImage
        (.ok (.jobj [("data", .jobj [("data", .jobj [("imageUrl", .jstr "u1")])])]))
        = .ok (.jobj [("data", .jobj [("imageUrl", .jstr "u1")])])
    ∧ uploadUtils.uploadImage (.ok (.jobj [("data", .jobj [("imageUrl", .jstr "u2")])]))
        = .ok (.jobj [("data", .jobj [("imageUrl", .jstr "u2")])])
    ∧ uploadUtils.uploadImage (.ok (.jobj [("imageUrl", .jstr "u3")]))
        = .ok (.jobj [("data", .jobj [("imageUrl", .jstr "u3")])])
    ∧ uploadUtils.uploadImage (.ok (.jobj []))
        = .error (mkJsError "Upload completed but no URL returned from server")
    ∧ uploadUtils.uploadVideo (.error (.jstr "boom")) = .error (.jstr "boom")
    ∧ uploadUtils.uploadVideo (.error .jundefined) = .error (typeError "response")
    ∧ uploadUtils.uploadVideo (.ok (.jobj [("videoUrl", .jstr "v")]))
        = .ok (.jobj [("data", .jobj [("videoUrl", .jstr "v")])])
    ∧ uploadUtils.uploadVideo (.ok (.jobj []))
        = .error (mkJsError "Upload completed but no URL returned from server") := by
  refine ⟨?_, ?_, ?_, ?_, ?_, ?_, ?_, ?_, ?_, ?_⟩
  · exact upload_url_extraction_spec.1 (.jstr "boom") rfl
  · exact upload_url_extraction_spec.2.1 .jundefined rfl
  · exact upload_url_extraction_spec.2.2.1
      (.jobj [("data", .jobj [("data", .jobj [("imageUrl", .jstr "u1")])])]) rfl
  · exact upload_url_extraction_spec.2.2.2.1
      (.jobj [("data", .jobj [("imageUrl", .jstr "u2")])]) rfl rfl
  · exact upload_url_extraction_spec.2.2.2.2.1 (.jobj [("imageUrl", .jstr "u3")]) rfl rfl rfl
  · exact upload_url_extraction_spec.2.2.2.2.2.1 (.jobj []) rfl rfl rfl
  · exact upload_url_extraction_spec.2.2.2.2.2.2.1 (.jstr "boom") rfl
  · exact upload_url_extraction_spec.2.2.2.2.2.2.2.1 .jundefined rfl
  · exact upload_url_extraction_spec.2.2.2.2.2.2.2.2.2.2.1
      (.jobj [("videoUrl", .jstr "v")]) rfl rfl rfl
  · exact upload_url_extraction_spec.2.2.2.2.2.2.2.2.2.2.2 (.jobj []) rfl rfl rfl
